import Mathlib

/-!
Shallow embedding of the SM-Visitor Visit Admission Engine
(`apps/pantry`): the schedule evaluator (`utils/time_utils.py`), the
SSE notification hub (`utils/sse_manager.py`), and the visit lifecycle
router (`routers/visits.py`).

Conventions of the embedding:
* instants are `Nat` (UTC ticks); wall-clock values obtained from
  `datetime.now(tz)` are supplied by a `ClockEnv` oracle, since the
  timezone database is external to the program;
* MongoDB collections are total functions from id strings to optional
  records; a `find_one` threads the state unchanged, an `update_one` /
  `insert_one` produces a new state;
* Python string statuses and rules are kept as `String`;
* Python dict `.get(key, default)` on optional fields is modelled by
  `Option` fields plus the same defaulting expression.
-/

namespace SMVisitor

/-! ## utils/time_utils.py -/

/-- A `time_windows` entry: `{"start_time": "HH:MM", "end_time": "HH:MM"}`.
`none` models an absent key; the empty string models a falsy present value
(both make `if not start or not end` skip the window). -/
structure TimeWindow where
  start_time : Option String
  end_time : Option String
  deriving Repr, DecidableEq

/-- The `schedule` dict of a visitor.  Defaults mirror the `.get` calls in
`is_within_schedule`: `enabled` defaults to `False`, `days_of_week` and
`time_windows` to `[]`, `timezone` to `"UTC"`. -/
structure Schedule where
  enabled : Bool := false
  days_of_week : List Nat := []
  time_windows : List TimeWindow := []
  timezone : String := "UTC"
  deriving Repr, DecidableEq

/-- The local wall clock obtained from `datetime.now(tz)`: the ISO weekday
`now.weekday() + 1` (1=Mon..7=Sun) and `now.strftime("%H:%M")`. -/
structure LocalNow where
  weekday : Nat
  timeStr : String
  deriving Repr, DecidableEq

/-- Oracle for the external timezone machinery: `tzOk name` is whether
`ZoneInfo(name)` succeeds, and `localNow name` is the wall clock
`datetime.now(ZoneInfo(name))` at the moment of the call. -/
structure ClockEnv where
  tzOk : String → Bool
  localNow : String → LocalNow

/-- Lexicographic comparison of character lists by Unicode code point,
the order Python uses for `str` comparison. -/
def lexLe : List Char → List Char → Bool
  | [], _ => true
  | _ :: _, [] => false
  | a :: as, b :: bs =>
      if a.toNat < b.toNat then true
      else if b.toNat < a.toNat then false
      else lexLe as bs

/-- Python `start <= cur <= end` comparisons on `"HH:MM"` strings are
plain lexicographic string comparisons. -/
def strLe (a b : String) : Bool := lexLe a.data b.data

/-- One iteration of the `for window in time_windows` loop body: does this
window match `current_time_str`?  A window with a falsy `start_time` or
`end_time` is skipped (`continue`).  `start <= end` is an ordinary window,
`start > end` wraps midnight. -/
def windowMatches (w : TimeWindow) (cur : String) : Bool :=
  match w.start_time, w.end_time with
  | some start, some e =>
      if start = "" || e = "" then false
      else if strLe start e then strLe start cur && strLe cur e
      else strLe start cur || strLe cur e
  | _, _ => false

/-- `is_within_schedule(schedule)` from `utils/time_utils.py`.
`none` models a falsy `schedule` argument (`None`/`{}`; an empty dict also
reads all defaults, so both falsy forms collapse to `none`).  The invalid-
timezone handler falls back to `"UTC"` and continues; nothing else in the
typed body can raise, so the outer `except: return False` has no
reachable trigger in the embedding. -/
def is_within_schedule (env : ClockEnv) (schedule : Option Schedule) : Bool :=
  match schedule with
  | none => true
  | some s =>
    if !s.enabled then true
    else
      let tz_name := s.timezone
      let tz := if env.tzOk tz_name then tz_name else "UTC"
      let now := env.localNow tz
      let current_day := now.weekday
      let days_of_week := s.days_of_week
      if !days_of_week.isEmpty && !days_of_week.contains current_day then false
      else
        let time_windows := s.time_windows
        if time_windows.isEmpty then true
        else
          let current_time_str := now.timeStr
          time_windows.any (fun w => windowMatches w current_time_str)

/-! ## utils/sse_manager.py

The hub keeps `connections : Dict[str, Set[asyncio.Queue]]` and
`user_roles : Dict[str, str]`.  Queues are identified by `Nat` handles;
a Python `set` of queues is a `Finset Nat`.  A dict is a total function
into `Option`; an absent key is `none` (so `del d[k]` and
"`k` was never inserted" coincide, as they do for dict membership). -/

structure SSEManager where
  connections : String → Option (Finset Nat)
  user_roles : String → Option String

/-- `SSEManager.__init__`: both dicts empty. -/
def SSEManager.empty : SSEManager := ⟨fun _ => none, fun _ => none⟩

/-- `connect(user_id, role)` with the fresh queue `queue`: create the set
if the key is absent, add the queue, record the role. -/
def SSEManager.connect (m : SSEManager) (user_id role : String) (queue : Nat) :
    SSEManager :=
  let cur := (m.connections user_id).getD ∅
  { connections := fun u => if u = user_id then some (insert queue cur) else m.connections u
    user_roles := fun u => if u = user_id then some role else m.user_roles u }

/-- `disconnect(user_id, queue)`: if the key is present, `discard` the
queue from its set; when the set becomes empty, delete the key and the
user's role entry (the source guards the role deletion with
`if user_id in self.user_roles`, which equals unconditional deletion on
the resulting mapping). -/
def SSEManager.disconnect (m : SSEManager) (user_id : String) (queue : Nat) :
    SSEManager :=
  match m.connections user_id with
  | none => m
  | some qs =>
      let qs' := qs.erase queue
      if qs' = ∅ then
        { connections := fun u => if u = user_id then none else m.connections u
          user_roles := fun u => if u = user_id then none else m.user_roles u }
      else
        { m with connections := fun u => if u = user_id then some qs' else m.connections u }

/-- A subscribe/unsubscribe step against the hub. -/
inductive HubOp
  | connect (user_id role : String) (queue : Nat)
  | disconnect (user_id : String) (queue : Nat)

def applyHubOp (m : SSEManager) : HubOp → SSEManager
  | .connect user_id role queue => m.connect user_id role queue
  | .disconnect user_id queue => m.disconnect user_id queue

def applyHubOps (ops : List HubOp) (m : SSEManager) : SSEManager :=
  ops.foldl applyHubOp m

/-- A principal holds a role-index entry exactly when it has at least one
live connection. -/
def SSEManager.RoleIffLive (m : SSEManager) : Prop :=
  ∀ u, (m.user_roles u).isSome ↔ ∃ qs, m.connections u = some qs ∧ qs ≠ ∅

/-! ## routers/visits.py : records -/

/-- A `visitors` collection document, restricted to the fields the visit
router reads.  `auto_approval_rule` models
`visitor.get("auto_approval", {}).get("rule", "always")`: `none` stands
for either missing level, so reading it is `.getD "always"`.
`is_all_flats` and `valid_flats` carry the `.get(_, False)` / `.get(_, [])`
defaults as Lean defaults. -/
structure Visitor where
  id : String
  name : String
  phone : Option String := none
  photo_url : String
  default_purpose : Option String := none
  is_active : Bool
  category : Option String := none
  category_label : Option String := none
  schedule : Option Schedule := none
  auto_approval_rule : Option String := none
  is_all_flats : Bool := false
  valid_flats : List String := []
  deriving Repr, DecidableEq

/-- A `temporary_qr` collection document (one-time guest pass). -/
structure TempQr where
  id : String
  guest_name : Option String := none
  owner_id : String
  used_at : Option Nat := none
  expires_at : Nat
  is_all_flats : Bool := false
  valid_flats : List String := []
  deriving Repr, DecidableEq

/-- A `visits` collection document, with the fields `start_visit` writes. -/
structure Visit where
  visitor_id : Option String
  name_snapshot : String
  phone_snapshot : Option String
  photo_snapshot_url : Option String
  purpose : String
  owner_id : String
  target_flat_ids : List String
  guard_id : String
  entry_time : Option Nat
  exit_time : Option Nat
  status : String
  qr_token : Option String
  created_at : Nat
  updated_at : Nat
  deriving Repr, DecidableEq

/-- The decoded QR token payload (`decode_qr_token` output), classified by
`payload.get("type")`.  JWT decoding itself is external to the router;
the router receives `none` when decoding failed. -/
inductive TokenPayload
  | regular (visitor_id : String)
  | temporary (temp_qr_id : String)
  | unknown
  deriving Repr, DecidableEq

/-- The `visitor_data` dict placed in a successful scan response: one shape
per token type (the `visitor_type` key is the constructor tag). -/
inductive ScanVisitorData
  | regular (visitor_id name : String) (phone : Option String) (photo_url : String)
      (purpose : String) (category category_label : String)
      (within_schedule : Bool) (auto_approval_rule : String)
  | temporary (temp_qr_id name owner_id : String) (purpose : String) (expires_at : Nat)
  deriving Repr, DecidableEq

/-- `QRScanResponse` from the router. -/
structure QRScanResponse where
  valid : Bool
  auto_approve : Bool := false
  visitor_data : Option ScanVisitorData := none
  error : Option String := none
  deriving Repr, DecidableEq

/-- Read-only view of the database as the scan endpoint sees it:
`validObjectId s` is whether `ObjectId(s)` constructs (the `try/except`
around the lookups), and the two collections are keyed by the embedded
id strings. -/
structure Db where
  validObjectId : String → Bool
  visitors : String → Option Visitor
  temp_qrs : String → Option TempQr
  resident_flat_ids : List String

/-! ## routers/visits.py : `scan_qr_code` (POST /visits/qr-scan)

The endpoint is embedded with the database state threaded through
explicitly, so that its frame (read-only-ness) is a stated fact rather
than a typing accident: every `find_one` passes `db` on unchanged, and
the function contains no `update_one`/`insert_one`, mirroring the
source. -/

def scan_qr_code (env : ClockEnv) (db : Db) (payload : Option TokenPayload)
    (now : Nat) : QRScanResponse × Db :=
  match payload with
  | none => ({ valid := false, error := some "Invalid or expired QR code" }, db)
  | some (.regular visitor_id) =>
      if !db.validObjectId visitor_id then
        ({ valid := false, error := some "Invalid visitor ID" }, db)
      else
        match db.visitors visitor_id with
        | none => ({ valid := false, error := some "Visitor not found" }, db)
        | some visitor =>
            if !visitor.is_active then
              ({ valid := false, error := some "Visitor has been deactivated" }, db)
            else
              let within_schedule := is_within_schedule env visitor.schedule
              let auto_approval_rule := visitor.auto_approval_rule.getD "always"
              let auto_approve :=
                if auto_approval_rule = "always" then true
                else if auto_approval_rule = "within_schedule" then within_schedule
                else if auto_approval_rule = "notify_only" then true
                else true
              ({ valid := true, auto_approve,
                 visitor_data := some (.regular visitor.id visitor.name visitor.phone
                   visitor.photo_url (visitor.default_purpose.getD "Visit")
                   (visitor.category.getD "other") (visitor.category_label.getD "Other")
                   within_schedule auto_approval_rule) }, db)
  | some (.temporary temp_qr_id) =>
      if !db.validObjectId temp_qr_id then
        ({ valid := false, error := some "Invalid temporary QR ID" }, db)
      else
        match db.temp_qrs temp_qr_id with
        | none => ({ valid := false, error := some "Temporary QR not found" }, db)
        | some temp_qr =>
            if temp_qr.used_at.isSome then
              ({ valid := false, error := some "QR code already used" }, db)
            else if temp_qr.expires_at < now then
              ({ valid := false, error := some "QR code expired" }, db)
            else
              ({ valid := true, auto_approve := true,
                 visitor_data := some (.temporary temp_qr.id
                   (temp_qr.guest_name.getD "Guest") temp_qr.owner_id
                   "Guest visit" temp_qr.expires_at) }, db)
  | some .unknown => ({ valid := false, error := some "Unknown QR code type" }, db)

/-! ## routers/visits.py : `start_visit` (POST /visits/start)

`random.sample(all_flats, min(len(all_flats), 3))` draws from the
external random source, so the sampler is an oracle parameter.  SSE
broadcasts after the insert read the freshly built document and do not
change the collections, so they are outside these definitions. -/

structure StartVisitQRRequest where
  qr_token : String
  owner_id : String
  purpose : Option String := none
  deriving Repr, DecidableEq

structure StartVisitNewRequest where
  name : String
  phone : Option String := none
  photo_url : String
  owner_id : String
  purpose : String
  deriving Repr, DecidableEq

/-- The target-flat computation shared (textually repeated) by all three
`start_visit` branches, lines 254-265 / 310-320 / 426-431: all-flats
sampling, else the explicit `valid_flats` list verbatim, else the single
requested owner id. -/
def resolveTargets (resident_flat_ids : List String)
    (sample : List String → Nat → List String)
    (is_all_flats : Bool) (valid_flats : List String) (owner_id : String) :
    List String :=
  if is_all_flats then
    if resident_flat_ids ≠ [] then
      sample resident_flat_ids (min resident_flat_ids.length 3)
    else []
  else if valid_flats ≠ [] then valid_flats
  else [owner_id]

/-- The regular-token branch of `start_visit` (lines 243-297): look up the
visitor, reject missing/inactive ones, resolve targets, evaluate the
auto-approval rule, and build the `visit_doc` that is then inserted.  The
`status_val`/`entry_time` pair mirrors the imperative default-then-override
of lines 271-280.  (The branch constructs `ObjectId(payload["visitor_id"])`
without a `try`, so the embedding presumes a well-formed id.) -/
def start_visit_regular (env : ClockEnv) (db : Db)
    (sample : List String → Nat → List String) (qr_request : StartVisitQRRequest)
    (visitor_id : String) (guard_id : String) (now : Nat) : Except String Visit :=
  match db.visitors visitor_id with
  | none => .error "Invalid or inactive visitor"
  | some visitor =>
      if !visitor.is_active then .error "Invalid or inactive visitor"
      else
        let target_flat_ids :=
          resolveTargets db.resident_flat_ids sample
            visitor.is_all_flats visitor.valid_flats qr_request.owner_id
        let rule := visitor.auto_approval_rule.getD "always"
        let st :=
          if rule = "manual" then ("pending", (none : Option Nat))
          else if rule = "within_schedule" then
            if !is_within_schedule env visitor.schedule then ("pending", none)
            else ("auto_approved", some now)
          else ("auto_approved", some now)
        .ok
          { visitor_id := some visitor.id
            name_snapshot := visitor.name
            phone_snapshot := visitor.phone
            photo_snapshot_url := some visitor.photo_url
            purpose := qr_request.purpose.getD (visitor.default_purpose.getD "Visit")
            owner_id := target_flat_ids.headD qr_request.owner_id
            target_flat_ids := target_flat_ids
            guard_id := guard_id
            entry_time := st.2
            exit_time := none
            status := st.1
            qr_token := some qr_request.qr_token
            created_at := now
            updated_at := now }

/-- The walk-in branch of `start_visit` (lines 424-448): no credential,
always `pending` with a null `entry_time`. -/
def start_visit_new (db : Db) (sample : List String → Nat → List String)
    (new_request : StartVisitNewRequest) (guard_id : String) (now : Nat) : Visit :=
  let target_flat_ids :=
    if new_request.owner_id = "all" then
      if db.resident_flat_ids ≠ [] then
        sample db.resident_flat_ids (min db.resident_flat_ids.length 3)
      else []
    else [new_request.owner_id]
  { visitor_id := none
    name_snapshot := new_request.name
    phone_snapshot := new_request.phone
    photo_snapshot_url := some new_request.photo_url
    purpose := new_request.purpose
    owner_id := target_flat_ids.headD new_request.owner_id
    target_flat_ids := target_flat_ids
    guard_id := guard_id
    entry_time := none
    exit_time := none
    status := "pending"
    qr_token := none
    created_at := now
    updated_at := now }

/-! ### The temporary-pass branch, phase-split

Lines 299-351 of `start_visit` touch the shared database twice: a
`find_one` + validity check near the top, and — after target resolution —
an `update_one({"_id": id}, {"$set": {"used_at": now}})` (filtered on the
id only, with no `"used_at": None` condition, and with the returned match
count never inspected) followed by `insert_one(visit_doc)`.  Between the
read and the write another request may run; the embedding therefore
splits the branch at that boundary, and the sequential endpoint is the
composition of the two phases. -/

structure Store where
  temp_qrs : String → Option TempQr
  visits : List Visit

/-- Phase 1 (lines 301-307): `find_one` and the
`not temp_qr or temp_qr.get("used_at") or utcnow() > expires_at` check;
`none` is the HTTP 400 "Invalid or expired temporary QR". -/
def tempRead (store : Store) (temp_qr_id : String) (now : Nat) : Option TempQr :=
  match store.temp_qrs temp_qr_id with
  | none => none
  | some temp_qr =>
      if temp_qr.used_at.isSome || temp_qr.expires_at < now then none
      else some temp_qr

/-- Phase 2 (lines 309-351): resolve targets from the phase-1 snapshot,
set `used_at` by an update keyed only on the id (applied whatever the
current `used_at` is, its match count ignored), and insert the visit
document built from the snapshot. -/
def tempCommit (store : Store) (temp_qr_id : String) (temp_qr : TempQr)
    (resident_flat_ids : List String) (sample : List String → Nat → List String)
    (qr_token guard_id : String) (now : Nat) : Store :=
  let target_flat_ids :=
    resolveTargets resident_flat_ids sample
      temp_qr.is_all_flats temp_qr.valid_flats temp_qr.owner_id
  let visit_doc : Visit :=
    { visitor_id := none
      name_snapshot := temp_qr.guest_name.getD "Guest"
      phone_snapshot := none
      photo_snapshot_url := none
      purpose := "Guest visit"
      owner_id := target_flat_ids.headD temp_qr.owner_id
      target_flat_ids := target_flat_ids
      guard_id := guard_id
      entry_time := some now
      exit_time := none
      status := "auto_approved"
      qr_token := some qr_token
      created_at := now
      updated_at := now }
  { temp_qrs := fun i =>
      if i = temp_qr_id then (store.temp_qrs i).map (fun t => { t with used_at := some now })
      else store.temp_qrs i
    visits := store.visits ++ [visit_doc] }

/-- The whole temporary branch run without interleaving: phase 1 then,
if it passed, phase 2. -/
def start_visit_temporary (store : Store) (temp_qr_id : String)
    (resident_flat_ids : List String) (sample : List String → Nat → List String)
    (qr_token guard_id : String) (now : Nat) : Except String Store :=
  match tempRead store temp_qr_id now with
  | none => .error "Invalid or expired temporary QR"
  | some temp_qr =>
      .ok (tempCommit store temp_qr_id temp_qr resident_flat_ids sample qr_token guard_id now)

/-! ## routers/visits.py : `approve_visit` and `checkout_visit`

Both endpoints are embedded from the point where the visit has been
fetched and the ownership check has passed; the pair returned is
(HTTP response, stored visit afterwards). -/

inductive VisitResult
  | ok (visit : Visit)
  | error (detail : String)
  deriving Repr, DecidableEq

/-- `approve_visit`, lines 553-601: a non-`pending` visit is returned
as-is when already `approved`, rejected with a 400 otherwise; a `pending`
visit gets `status="approved"`, `entry_time=now`, `updated_at=now`. -/
def approve_visit (visit : Visit) (now : Nat) : VisitResult × Visit :=
  if visit.status ≠ "pending" then
    if visit.status = "approved" then (.ok visit, visit)
    else (.error ("Visit is " ++ visit.status ++ ", cannot approve"), visit)
  else
    let updated := { visit with status := "approved", entry_time := some now, updated_at := now }
    (.ok updated, updated)

/-- `checkout_visit`, lines 792-826: `if visit.get("exit_time")` is a 400;
otherwise only `exit_time` and `updated_at` are `$set`. -/
def checkout_visit (visit : Visit) (now : Nat) : VisitResult × Visit :=
  if visit.exit_time.isSome then (.error "Visit already checked out", visit)
  else
    let updated := { visit with exit_time := some now, updated_at := now }
    (.ok updated, updated)

/-! ## Concrete instances used to evaluate the definitions -/

/-- A clock that accepts every timezone name and always reads Monday
noon. -/
def envMon : ClockEnv := ⟨fun _ => true, fun _ => ⟨1, "12:00"⟩⟩

/-- A clock on which only `"UTC"` is a constructible timezone (so any
other name takes the invalid-timezone fallback path); it always reads
Monday noon. -/
def envNoTz : ClockEnv := ⟨fun t => t == "UTC", fun _ => ⟨1, "12:00"⟩⟩

/-- An enabled, otherwise unrestricted schedule naming a timezone that
does not resolve. -/
def schedBadTz : Schedule := { enabled := true, timezone := "Not/AZone" }

/-- An enabled schedule whose only time window lacks its start time. -/
def schedMalformed : Schedule :=
  { enabled := true, time_windows := [⟨none, some "10:00"⟩] }

/-- A baseline pending visit. -/
def vBase : Visit :=
  { visitor_id := none, name_snapshot := "Visitor", phone_snapshot := none
    photo_snapshot_url := none, purpose := "Delivery", owner_id := "A-207"
    target_flat_ids := ["A-207"], guard_id := "g1", entry_time := none
    exit_time := none, status := "pending", qr_token := none
    created_at := 0, updated_at := 0 }

/-- A deactivated recurring visitor. -/
def visitorInactive : Visitor :=
  { id := "v1", name := "Bob", photo_url := "b.jpg", is_active := false }

/-- An active visitor with a rule string none of the four policies name. -/
def visitorOddRule : Visitor :=
  { id := "v2", name := "Carla", photo_url := "c.jpg", is_active := true
    auto_approval_rule := some "sometimes" }

/-- An active visitor addressed to a single explicit flat (neither the
all-flats flag nor an explicit flat list). -/
def visitorPlain : Visitor :=
  { id := "v3", name := "Dan", photo_url := "d.jpg", is_active := true }

/-- A database holding the three visitors above and no passes. -/
def dbW : Db :=
  { validObjectId := fun _ => true
    visitors := fun i =>
      if i = "v1" then some visitorInactive
      else if i = "v2" then some visitorOddRule
      else if i = "v3" then some visitorPlain
      else none
    temp_qrs := fun _ => none
    resident_flat_ids := [] }

/-- A deterministic stand-in for `random.sample`. -/
def sampleHead : List String → Nat → List String := fun l n => l.take n

/-- An unused, unexpired one-time pass. -/
def passP : TempQr := { id := "p1", owner_id := "A-101", expires_at := 100 }

/-- A store holding only `passP`, with no visits yet. -/
def storeP : Store :=
  { temp_qrs := fun i => if i = "p1" then some passP else none, visits := [] }

/-- A hub with two live connections for alice and one for bob. -/
def hubW : SSEManager :=
  ((SSEManager.empty.connect "alice" "owner" 1).connect "alice" "owner" 2).connect
    "bob" "guard" 5

/-! # Theorems -/

/-- C3: approve succeeds only from status `pending` (setting status to
`approved` and `entry_time` to now); approve on an already-`approved`
visit is idempotent, returning the current visit unchanged rather than
an error; and approve on a `rejected` or `auto_approved` visit returns
an invalid-transition error without changing the visit. -/
theorem approve_transitions (v : Visit) (now : Nat) :
    (v.status = "pending" →
      approve_visit v now =
        (.ok { v with status := "approved", entry_time := some now, updated_at := now },
         { v with status := "approved", entry_time := some now, updated_at := now })) ∧
    (v.status = "approved" → approve_visit v now = (.ok v, v)) ∧
    (v.status = "rejected" ∨ v.status = "auto_approved" →
      approve_visit v now = (.error ("Visit is " ++ v.status ++ ", cannot approve"), v)) := by
  refine ⟨fun h => ?_, fun h => ?_, fun h => ?_⟩
  · simp [approve_visit, h]
  · simp [approve_visit, h]
  · rcases h with h | h <;> simp [approve_visit, h]

/-- Evaluation of `approve_transitions` on one visit in each status. -/
theorem approve_transitions_witness :
    approve_visit vBase 5 =
      (.ok { vBase with status := "approved", entry_time := some 5, updated_at := 5 },
       { vBase with status := "approved", entry_time := some 5, updated_at := 5 }) ∧
    approve_visit { vBase with status := "approved" } 5 =
      (.ok { vBase with status := "approved" }, { vBase with status := "approved" }) ∧
    approve_visit { vBase with status := "rejected" } 5 =
      (.error "Visit is rejected, cannot approve", { vBase with status := "rejected" }) ∧
    approve_visit { vBase with status := "auto_approved" } 5 =
      (.error "Visit is auto_approved, cannot approve", { vBase with status := "auto_approved" }) :=
  ⟨(approve_transitions vBase 5).1 rfl,
   (approve_transitions _ 5).2.1 rfl,
   (approve_transitions _ 5).2.2 (Or.inl rfl),
   (approve_transitions _ 5).2.2 (Or.inr rfl)⟩

/-- C4: checkout succeeds from any status provided `exit_time` is null,
setting `exit_time` to now and leaving every other field except
`updated_at` unchanged; a checkout when `exit_time` is already set
returns an already-checked-out error and changes nothing. -/
theorem checkout_frame (v : Visit) (now : Nat) :
    (v.exit_time = none →
      checkout_visit v now =
        (.ok { v with exit_time := some now, updated_at := now },
         { v with exit_time := some now, updated_at := now }) ∧
      (checkout_visit v now).2.exit_time = some now ∧
      (checkout_visit v now).2.status = v.status ∧
      (checkout_visit v now).2.visitor_id = v.visitor_id ∧
      (checkout_visit v now).2.name_snapshot = v.name_snapshot ∧
      (checkout_visit v now).2.phone_snapshot = v.phone_snapshot ∧
      (checkout_visit v now).2.photo_snapshot_url = v.photo_snapshot_url ∧
      (checkout_visit v now).2.purpose = v.purpose ∧
      (checkout_visit v now).2.owner_id = v.owner_id ∧
      (checkout_visit v now).2.target_flat_ids = v.target_flat_ids ∧
      (checkout_visit v now).2.guard_id = v.guard_id ∧
      (checkout_visit v now).2.entry_time = v.entry_time ∧
      (checkout_visit v now).2.qr_token = v.qr_token ∧
      (checkout_visit v now).2.created_at = v.created_at) ∧
    (∀ t, v.exit_time = some t →
      checkout_visit v now = (.error "Visit already checked out", v)) := by
  constructor
  · intro h
    refine ⟨by simp [checkout_visit, h], ?_⟩
    simp [checkout_visit, h]
  · intro t h
    simp [checkout_visit, h]

/-- Evaluation of `checkout_frame` on a never-checked-out visit with a
non-pending status and on an already-checked-out one. -/
theorem checkout_frame_witness :
    (checkout_visit { vBase with status := "auto_approved" } 7 =
      (.ok { vBase with status := "auto_approved", exit_time := some 7, updated_at := 7 },
       { vBase with status := "auto_approved", exit_time := some 7, updated_at := 7 }) ∧
     (checkout_visit { vBase with status := "auto_approved" } 7).2.status = "auto_approved") ∧
    checkout_visit { vBase with exit_time := some 3 } 9 =
      (.error "Visit already checked out", { vBase with exit_time := some 3 }) :=
  ⟨⟨((checkout_frame { vBase with status := "auto_approved" } 7).1 rfl).1,
    ((checkout_frame { vBase with status := "auto_approved" } 7).1 rfl).2.2.1⟩,
   (checkout_frame { vBase with exit_time := some 3 } 9).2 3 rfl⟩

/-- C7: `is_within_schedule` is true for every instant when the schedule
is disabled; true when enabled with empty `days_of_week` and empty
`time_windows`; and false when `days_of_week` is non-empty and the
current ISO weekday (whatever timezone the clock is read in) is not a
member. -/
theorem within_schedule_basic :
    (∀ (env : ClockEnv) (s : Schedule), s.enabled = false →
      is_within_schedule env (some s) = true) ∧
    (∀ (env : ClockEnv) (s : Schedule), s.enabled = true → s.days_of_week = [] →
      s.time_windows = [] → is_within_schedule env (some s) = true) ∧
    (∀ (env : ClockEnv) (s : Schedule), s.enabled = true → s.days_of_week ≠ [] →
      (∀ tz, (env.localNow tz).weekday ∉ s.days_of_week) →
      is_within_schedule env (some s) = false) := by
  refine ⟨fun env s h => ?_, fun env s h h1 h2 => ?_, fun env s h h1 h2 => ?_⟩
  · simp [is_within_schedule, h]
  · simp [is_within_schedule, h, h1, h2]
  · have hmem := h2 (if env.tzOk s.timezone then s.timezone else "UTC")
    simp [is_within_schedule, h, h1, hmem, List.isEmpty_iff]

/-- Evaluation of `within_schedule_basic`: a disabled schedule, an
enabled unrestricted schedule, and the spec's `days_of_week=[3]` schedule
read on a Monday. -/
theorem within_schedule_basic_witness :
    is_within_schedule envMon (some {}) = true ∧
    is_within_schedule envMon (some { enabled := true }) = true ∧
    is_within_schedule envMon (some { enabled := true, days_of_week := [3] }) = false :=
  ⟨within_schedule_basic.1 envMon {} rfl,
   within_schedule_basic.2.1 envMon { enabled := true } rfl rfl rfl,
   within_schedule_basic.2.2 envMon { enabled := true, days_of_week := [3] } rfl
     (by decide) (fun tz => by simp [envMon])⟩

/-- C2 counterexample: the claim says a bad/unknown timezone name makes
`is_within_schedule` return false (fail closed).  On a clock where
`schedBadTz.timezone` does not resolve, the function instead falls back
to UTC, carries on, and here returns true. -/
theorem bad_timezone_not_fail_closed :
    envNoTz.tzOk schedBadTz.timezone = false ∧
    is_within_schedule envNoTz (some schedBadTz) = true := by decide

/-- A window whose `start_time` or `end_time` is absent or empty never
matches (the loop `continue`s past it). -/
theorem windowMatches_malformed (w : TimeWindow) (cur : String)
    (h : w.start_time.getD "" = "" ∨ w.end_time.getD "" = "") :
    windowMatches w cur = false := by
  rcases w with ⟨st, en⟩
  cases st <;> cases en <;> simp_all [windowMatches]

/-- C2 amended: errors are never raised to the caller, and an error that
reaches the outer handler fails closed, but the two error classes the
claim names are handled earlier without failing closed: an invalid
timezone name falls back to `"UTC"` and evaluation continues with the
otherwise-unchanged schedule (so the result can be true), while a
malformed time window is skipped, so a non-empty window list in which
every window is malformed yields false. -/
theorem within_schedule_error_handling (env : ClockEnv) (s : Schedule) :
    (env.tzOk s.timezone = false →
      is_within_schedule env (some s) =
        is_within_schedule env (some { s with timezone := "UTC" })) ∧
    (s.enabled = true → s.time_windows ≠ [] →
      (∀ w ∈ s.time_windows, w.start_time.getD "" = "" ∨ w.end_time.getD "" = "") →
      is_within_schedule env (some s) = false) := by
  constructor
  · intro h
    simp only [is_within_schedule, h]
    cases hu : env.tzOk "UTC" <;> simp [hu]
  · intro h h1 h2
    have hany : ∀ cur, (s.time_windows.any fun w => windowMatches w cur) = false := by
      intro cur
      rw [List.any_eq_false]
      intro w hw
      simpa using windowMatches_malformed w cur (h2 w hw)
    simp [is_within_schedule, h, List.isEmpty_iff, h1, hany]

/-- Evaluation of `within_schedule_error_handling`: the UTC fallback for
`schedBadTz`'s unresolvable timezone, and the all-windows-malformed
schedule failing closed. -/
theorem within_schedule_error_handling_witness :
    is_within_schedule envNoTz (some schedBadTz) =
      is_within_schedule envNoTz (some { schedBadTz with timezone := "UTC" }) ∧
    is_within_schedule envMon (some schedMalformed) = false :=
  ⟨(within_schedule_error_handling envNoTz schedBadTz).1 (by decide),
   (within_schedule_error_handling envMon schedMalformed).2 rfl (by decide)
     (by intro w hw; simp [schedMalformed] at hw; simp [hw])⟩

/-- C5: the scan endpoint performs no write: whatever the token and the
database contents, the database after `scan_qr_code` is the database
before it — a scan-preview never consumes a pass nor touches a
credential record. -/
theorem scan_qr_code_read_only (env : ClockEnv) (db : Db)
    (payload : Option TokenPayload) (now : Nat) :
    (scan_qr_code env db payload now).2 = db := by
  cases payload with
  | none => rfl
  | some p =>
      cases p <;> simp only [scan_qr_code] <;> (repeat' split) <;> rfl

/-- C6: a recurring-visitor token whose backing record has
`is_active=false` is refused by both endpoints even though the token
decoded: the scan returns not-valid with the deactivated error, and
visit creation fails with the invalid-or-inactive error. -/
theorem inactive_visitor_refused (env : ClockEnv) (db : Db)
    (sample : List String → Nat → List String) (qr_request : StartVisitQRRequest)
    (visitor_id guard_id : String) (now : Nat) (visitor : Visitor)
    (hvalid : db.validObjectId visitor_id = true)
    (hfind : db.visitors visitor_id = some visitor)
    (hinactive : visitor.is_active = false) :
    (scan_qr_code env db (some (.regular visitor_id)) now).1 =
      { valid := false, auto_approve := false, visitor_data := none,
        error := some "Visitor has been deactivated" } ∧
    start_visit_regular env db sample qr_request visitor_id guard_id now =
      .error "Invalid or inactive visitor" := by
  constructor
  · simp [scan_qr_code, hvalid, hfind, hinactive]
  · simp [start_visit_regular, hfind, hinactive]

/-- Evaluation of `inactive_visitor_refused` on the deactivated visitor
`visitorInactive` stored under `"v1"` in `dbW`. -/
theorem inactive_visitor_refused_witness :
    (scan_qr_code envMon dbW (some (.regular "v1")) 0).1 =
      { valid := false, auto_approve := false, visitor_data := none,
        error := some "Visitor has been deactivated" } ∧
    start_visit_regular envMon dbW sampleHead ⟨"tok", "A-207", none⟩ "v1" "g1" 0 =
      .error "Invalid or inactive visitor" :=
  inactive_visitor_refused envMon dbW sampleHead ⟨"tok", "A-207", none⟩ "v1" "g1" 0
    visitorInactive rfl rfl rfl

/-- C8: with neither the all-flats flag nor an explicit flat list, the
resolved audience of a single explicit flat id F is `[F]`, and the
created visit's `owner_id` (the primary target) is F — the first element
of the resolved set — in both the credential-backed flow and the walk-in
flow. -/
theorem single_flat_audience (env : ClockEnv) (db : Db)
    (sample : List String → Nat → List String) (qr_request : StartVisitQRRequest)
    (visitor_id guard_id : String) (now : Nat) (visitor : Visitor)
    (hfind : db.visitors visitor_id = some visitor)
    (hactive : visitor.is_active = true)
    (hall : visitor.is_all_flats = false)
    (hflats : visitor.valid_flats = []) :
    (∃ doc, start_visit_regular env db sample qr_request visitor_id guard_id now = .ok doc ∧
      doc.target_flat_ids = [qr_request.owner_id] ∧
      doc.owner_id = qr_request.owner_id) ∧
    (∀ (new_request : StartVisitNewRequest) (guard2 : String) (now2 : Nat),
      new_request.owner_id ≠ "all" →
      (start_visit_new db sample new_request guard2 now2).target_flat_ids =
        [new_request.owner_id] ∧
      (start_visit_new db sample new_request guard2 now2).owner_id =
        new_request.owner_id) := by
  constructor
  · simp only [start_visit_regular, hfind, hactive, Bool.not_true, Bool.false_eq_true,
      if_false, ite_false]
    exact ⟨_, rfl, by simp [resolveTargets, hall, hflats],
      by simp [resolveTargets, hall, hflats]⟩
  · intro new_request guard2 now2 h
    constructor <;> simp [start_visit_new, h]

/-- Evaluation of `single_flat_audience`: the plain visitor `"v3"` and a
walk-in, both addressed to the single flat `"A-207"`. -/
theorem single_flat_audience_witness :
    (∃ doc, start_visit_regular envMon dbW sampleHead ⟨"tok", "A-207", none⟩ "v3" "g1" 0 =
        .ok doc ∧ doc.target_flat_ids = ["A-207"] ∧ doc.owner_id = "A-207") ∧
    ((start_visit_new dbW sampleHead ⟨"Eve", none, "e.jpg", "A-207", "Delivery"⟩ "g1" 0).target_flat_ids
        = ["A-207"] ∧
     (start_visit_new dbW sampleHead ⟨"Eve", none, "e.jpg", "A-207", "Delivery"⟩ "g1" 0).owner_id
        = "A-207") :=
  ⟨(single_flat_audience envMon dbW sampleHead ⟨"tok", "A-207", none⟩ "v3" "g1" 0
      visitorPlain rfl rfl rfl rfl).1,
   (single_flat_audience envMon dbW sampleHead ⟨"tok", "A-207", none⟩ "v3" "g1" 0
      visitorPlain rfl rfl rfl rfl).2 ⟨"Eve", none, "e.jpg", "A-207", "Delivery"⟩ "g1" 0
      (by decide)⟩

/-- C10 (implicit): a credential-backed visit whose auto-approval rule is
absent or is not one of the four named policies is treated as `always`:
the visit is created with status `auto_approved` and `entry_time = now`
(the fallback is fail-open, not pending). -/
theorem missing_rule_fail_open (env : ClockEnv) (db : Db)
    (sample : List String → Nat → List String) (qr_request : StartVisitQRRequest)
    (visitor_id guard_id : String) (now : Nat) (visitor : Visitor)
    (hfind : db.visitors visitor_id = some visitor)
    (hactive : visitor.is_active = true)
    (hrule : visitor.auto_approval_rule = none ∨
      ∀ r, visitor.auto_approval_rule = some r →
        r ≠ "always" ∧ r ≠ "within_schedule" ∧ r ≠ "notify_only" ∧ r ≠ "manual") :
    ∃ doc, start_visit_regular env db sample qr_request visitor_id guard_id now = .ok doc ∧
      doc.status = "auto_approved" ∧ doc.entry_time = some now := by
  simp only [start_visit_regular, hfind, hactive, Bool.not_true, Bool.false_eq_true,
    if_false, ite_false]
  rcases hrule with h | h
  · exact ⟨_, rfl, by simp [h], by simp [h]⟩
  · rcases hr : visitor.auto_approval_rule with _ | r
    · exact ⟨_, rfl, by simp [hr], by simp [hr]⟩
    · obtain ⟨-, h2, -, h4⟩ := h r hr
      exact ⟨_, rfl, by simp [hr, h2, h4], by simp [hr, h2, h4]⟩

/-- Evaluation of `missing_rule_fail_open`: `visitorPlain` (no
`auto_approval` dict at all) and `visitorOddRule` (rule `"sometimes"`). -/
theorem missing_rule_fail_open_witness :
    (∃ doc, start_visit_regular envMon dbW sampleHead ⟨"tok", "A-207", none⟩ "v3" "g1" 4 =
        .ok doc ∧ doc.status = "auto_approved" ∧ doc.entry_time = some 4) ∧
    (∃ doc, start_visit_regular envMon dbW sampleHead ⟨"tok", "A-207", none⟩ "v2" "g1" 4 =
        .ok doc ∧ doc.status = "auto_approved" ∧ doc.entry_time = some 4) :=
  ⟨missing_rule_fail_open envMon dbW sampleHead ⟨"tok", "A-207", none⟩ "v3" "g1" 4
      visitorPlain rfl rfl (Or.inl rfl),
   missing_rule_fail_open envMon dbW sampleHead ⟨"tok", "A-207", none⟩ "v2" "g1" 4
      visitorOddRule rfl rfl
      (Or.inr (fun r hr => by
        simp only [visitorOddRule, Option.some.injEq] at hr
        subst hr
        exact ⟨by decide, by decide, by decide, by decide⟩))⟩

/-- The empty hub satisfies role-iff-live. -/
theorem roleIffLive_empty : SSEManager.empty.RoleIffLive := by
  intro u
  simp [SSEManager.empty]

/-- `connect` preserves role-iff-live. -/
theorem roleIffLive_connect (m : SSEManager) (user_id role : String) (queue : Nat)
    (h : m.RoleIffLive) : (m.connect user_id role queue).RoleIffLive := by
  intro u
  by_cases hu : u = user_id
  · simp [SSEManager.connect, hu, Finset.insert_ne_empty]
  · simpa [SSEManager.connect, hu] using h u

/-- `disconnect` preserves role-iff-live. -/
theorem roleIffLive_disconnect (m : SSEManager) (user_id : String) (queue : Nat)
    (h : m.RoleIffLive) : (m.disconnect user_id queue).RoleIffLive := by
  intro u
  rcases hc : m.connections user_id with _ | qs
  · simpa [SSEManager.disconnect, hc] using h u
  · by_cases he : qs.erase queue = ∅
    · by_cases hu : u = user_id
      · simp [SSEManager.disconnect, hc, he, hu]
      · simpa [SSEManager.disconnect, hc, he, hu] using h u
    · by_cases hu : u = user_id
      · subst hu
        have hq : qs ≠ ∅ := fun h0 => he (by simp [h0])
        have hl : (m.user_roles u).isSome := (h u).2 ⟨qs, hc, hq⟩
        simp [SSEManager.disconnect, hc, he, hl]
      · simpa [SSEManager.disconnect, hc, he, hu] using h u

/-- Every hub reachable from empty by subscribe/unsubscribe steps
satisfies role-iff-live. -/
theorem roleIffLive_applyHubOps : ∀ (ops : List HubOp) (m : SSEManager),
    m.RoleIffLive → (applyHubOps ops m).RoleIffLive
  | [], _, h => h
  | op :: ops, m, h => by
      have h1 : (applyHubOp m op).RoleIffLive := by
        cases op with
        | connect uid role q => exact roleIffLive_connect m uid role q h
        | disconnect uid q => exact roleIffLive_disconnect m uid q h
      simpa [applyHubOps] using roleIffLive_applyHubOps ops (applyHubOp m op) h1

/-- C9: unsubscribing a handle removes exactly that handle from the
principal's connection set (other principals untouched, and an absent
principal makes the call a no-op); the role-index entry is removed if
and only if the removed handle was the principal's last one (the
resulting set is empty, which for a member handle means the set was
exactly that singleton); and after any sequence of subscribe/unsubscribe
operations from the empty hub, a principal has a role entry exactly when
it has at least one live connection. -/
theorem hub_unsubscribe (m : SSEManager) (user_id : String) (queue : Nat) :
    (∀ u, u ≠ user_id →
      (m.disconnect user_id queue).connections u = m.connections u ∧
      (m.disconnect user_id queue).user_roles u = m.user_roles u) ∧
    (m.connections user_id = none → m.disconnect user_id queue = m) ∧
    (∀ qs, m.connections user_id = some qs →
      (m.disconnect user_id queue).connections user_id =
        (if qs.erase queue = ∅ then none else some (qs.erase queue)) ∧
      (m.disconnect user_id queue).user_roles user_id =
        (if qs.erase queue = ∅ then none else m.user_roles user_id) ∧
      (queue ∈ qs → (qs.erase queue = ∅ ↔ qs = {queue}))) ∧
    (∀ ops : List HubOp, (applyHubOps ops SSEManager.empty).RoleIffLive) := by
  refine ⟨fun u hu => ?_, fun hc => ?_, fun qs hc => ⟨?_, ?_, fun hq => ?_⟩, fun ops => ?_⟩
  · rcases hc : m.connections user_id with _ | qs
    · simp [SSEManager.disconnect, hc]
    · by_cases he : qs.erase queue = ∅ <;> simp [SSEManager.disconnect, hc, he, hu]
  · simp [SSEManager.disconnect, hc]
  · by_cases he : qs.erase queue = ∅ <;> simp [SSEManager.disconnect, hc, he]
  · by_cases he : qs.erase queue = ∅ <;> simp [SSEManager.disconnect, hc, he]
  · rw [Finset.erase_eq_empty_iff]
    constructor
    · rintro (h0 | h0)
      · exact absurd (h0 ▸ hq) (Finset.not_mem_empty _)
      · exact h0
    · exact fun h0 => Or.inr h0
  · exact roleIffLive_applyHubOps ops _ roleIffLive_empty

/-- Evaluation of `hub_unsubscribe` on `hubW`: unaffected principal,
absent principal, non-last handle, last handle, and a concrete
subscribe/unsubscribe history. -/
theorem hub_unsubscribe_witness :
    (hubW.disconnect "alice" 1).connections "bob" = hubW.connections "bob" ∧
    (hubW.disconnect "alice" 1).user_roles "bob" = hubW.user_roles "bob" ∧
    hubW.disconnect "carol" 7 = hubW ∧
    (hubW.disconnect "alice" 1).connections "alice" =
      (if ({2, 1} : Finset Nat).erase 1 = ∅ then none
       else some (({2, 1} : Finset Nat).erase 1)) ∧
    (hubW.disconnect "alice" 1).user_roles "alice" =
      (if ({2, 1} : Finset Nat).erase 1 = ∅ then none else hubW.user_roles "alice") ∧
    (({5} : Finset Nat).erase 5 = ∅ ↔ ({5} : Finset Nat) = {5}) ∧
    (applyHubOps [.connect "alice" "owner" 1, .disconnect "alice" 1]
      SSEManager.empty).RoleIffLive :=
  ⟨((hub_unsubscribe hubW "alice" 1).1 "bob" (by decide)).1,
   ((hub_unsubscribe hubW "alice" 1).1 "bob" (by decide)).2,
   (hub_unsubscribe hubW "carol" 7).2.1 rfl,
   ((hub_unsubscribe hubW "alice" 1).2.2.1 {2, 1} rfl).1,
   ((hub_unsubscribe hubW "alice" 1).2.2.1 {2, 1} rfl).2.1,
   ((hub_unsubscribe hubW "bob" 5).2.2.1 {5} rfl).2.2 (by simp),
   (hub_unsubscribe hubW "carol" 0).2.2.2
     [.connect "alice" "owner" 1, .disconnect "alice" 1]⟩

/-- C1 (demonstrating the code bug): the one-time-pass consumption in
`start_visit` is not the conditional update the claim describes.  Two
requests against the same unused pass, interleaved as the endpoint's
read and write phases allow (read A, read B, commit A, commit B), both
pass validation and both insert a visit: after commit A the pass is
already marked used — a fresh sequential read at that point would fail —
yet commit B, whose update is keyed only on the pass id and whose match
count is never inspected, silently re-marks the pass used and inserts a
second visit, so a single pass backs two created visits. -/
theorem temp_pass_double_redemption :
    tempRead storeP "p1" 10 = some passP ∧
    (tempCommit storeP "p1" passP [] sampleHead "tokA" "g1" 10).temp_qrs "p1" =
      some { passP with used_at := some 10 } ∧
    tempRead (tempCommit storeP "p1" passP [] sampleHead "tokA" "g1" 10) "p1" 11 = none ∧
    (tempCommit (tempCommit storeP "p1" passP [] sampleHead "tokA" "g1" 10)
        "p1" passP [] sampleHead "tokB" "g2" 11).temp_qrs "p1" =
      some { passP with used_at := some 11 } ∧
    (tempCommit (tempCommit storeP "p1" passP [] sampleHead "tokA" "g1" 10)
        "p1" passP [] sampleHead "tokB" "g2" 11).visits.length = 2 :=
  ⟨rfl, rfl, rfl, rfl, rfl⟩

end SMVisitor
